import Mathlib

/-!
Verification of the ticket issuance and redemption core of the
TicketingSystem repository (src/main.py, src/scanner.py).

The store is modelled as a list of rows (the `tickets` table in insertion
order).  `verify_ticket` embeds scanner.py's redemption routine, including
its exception handler via explicit fault injection; `create_ticket` embeds
main.py's POST /tickets handler, tracking the sequence of externally
observable steps (identifier generation, store accesses, notification) as
an event trace.  The SELECT and UPDATE of `verify_ticket` are separate
statements in the source, so the redemption routine is additionally split
into a read phase and a finish phase, from which interleavings of
concurrent callers can be formed.
-/

namespace TicketingSystem

/-- The `TicketType` enum of main.py: values `premium`, `non_premium`,
`guest`. -/
inductive TicketType where
  | premium
  | non_premium
  | guest
deriving DecidableEq, Repr

/-- The string value of each enum member (`TicketType.PREMIUM = "premium"`,
`NON_PREMIUM = "non_premium"`, `GUEST = "guest"`). -/
def TicketType.value : TicketType → String
  | .premium => "premium"
  | .non_premium => "non_premium"
  | .guest => "guest"

/-- Coercion of a string into the enum, as pydantic does when validating
the `ticket_type` field and as `TicketType(row[5])` does when reading a
row back; strings outside the enum are rejected. -/
def TicketType.parse : String → Option TicketType
  | "premium" => some .premium
  | "non_premium" => some .non_premium
  | "guest" => some .guest
  | _ => none

/-- One row of the `tickets` table.  The column set is the one used by
main.py's INSERT plus the `is_scanned` flag read and written by
scanner.py. -/
structure Ticket where
  ticket_uid : String
  name : String
  mobile : String
  email : String
  upi_id : String
  ticket_type : TicketType
  ticket_count : Int
  is_scanned : Bool
deriving DecidableEq, Repr

/-- The `tickets` table, rows in insertion order. -/
abbrev Store := List Ticket

/-- `SELECT ... FROM tickets WHERE ticket_uid = %s` (first matching row). -/
def findByUid (s : Store) (uid : String) : Option Ticket :=
  s.find? (fun t => t.ticket_uid == uid)

/-- `SELECT 1 FROM tickets WHERE upi_id = %s LIMIT 1` as a boolean. -/
def existsByUpi (s : Store) (upi : String) : Bool :=
  s.any (fun t => t.upi_id == upi)

/-- `UPDATE tickets SET is_scanned = TRUE WHERE ticket_uid = %s`.  The
update is unconditional on the current `is_scanned` value, exactly as in
the source SQL. -/
def markScanned (s : Store) (uid : String) : Store :=
  s.map (fun t => if t.ticket_uid == uid then { t with is_scanned := true } else t)

/-- The `is_scanned` flag of the row a uid resolves to, if any. -/
def flagOf (s : Store) (uid : String) : Option Bool :=
  (findByUid s uid).map (fun t => t.is_scanned)

/-! ## Redemption (scanner.py, `verify_ticket`) -/

/-- Fault injection for the store calls of `verify_ticket`: the SELECT,
the UPDATE and the final `conn.commit()` can each raise, landing in the
routine's `except` handler. -/
structure DbFault where
  failSelect : Bool
  failUpdate : Bool
  failCommit : Bool
deriving DecidableEq, Repr

/-- The fault-free execution environment. -/
def noFault : DbFault := ⟨false, false, false⟩

/-- scanner.py `verify_ticket`: SELECT the row; missing row →
`("USER DOESN'T EXIST", False)`; `is_scanned` already true →
`("USER ALREADY VERIFIED", False)`; otherwise UPDATE the flag, commit and
return `("USER VERIFIED - OK", True)`.  Any raised exception yields
`("DB ERROR", False)` with nothing committed.  The returned store is the
committed state after the call. -/
def verify_ticket (f : DbFault) (s : Store) (uid : String) : String × Bool × Store :=
  if f.failSelect then ("DB ERROR", false, s)
  else
    match findByUid s uid with
    | none => ("USER DOESN'T EXIST", false, s)
    | some t =>
      if t.is_scanned then ("USER ALREADY VERIFIED", false, s)
      else if f.failUpdate then ("DB ERROR", false, s)
      else if f.failCommit then ("DB ERROR", false, s)
      else ("USER VERIFIED - OK", true, markScanned s uid)

/-- The read phase of `verify_ticket`: the SELECT of the `is_scanned`
flag, a separate statement from the UPDATE in the source. -/
def scanRead (s : Store) (uid : String) : Option Bool :=
  (findByUid s uid).map (fun t => t.is_scanned)

/-- The rest of `verify_ticket` after the SELECT, acting on whatever the
(possibly stale) read returned: the branch on the flag, and on the
unscanned branch the unguarded UPDATE plus commit against the current
store. -/
def scanFinish (s : Store) (uid : String) : Option Bool → String × Bool × Store
  | none => ("USER DOESN'T EXIST", false, s)
  | some true => ("USER ALREADY VERIFIED", false, s)
  | some false => ("USER VERIFIED - OK", true, markScanned s uid)

/-- Sequentially, the two-phase decomposition coincides with
`verify_ticket` run without faults. -/
theorem verify_eq_scanFinish_scanRead (s : Store) (uid : String) :
    verify_ticket noFault s uid = scanFinish s uid (scanRead s uid) := by
  unfold verify_ticket scanFinish scanRead noFault
  cases h : findByUid s uid with
  | none => simp
  | some t => cases ht : t.is_scanned <;> simp [ht]

/-! ## Issuance (main.py, `create_ticket`) -/

/-- The raw body of a POST /tickets request, before pydantic validation.
`ticket_count` carries pydantic's default of 1 when the field is absent. -/
structure RawTicketCreate where
  name : String
  mobile : String
  email : String
  upi_id : String
  ticket_type : String
  ticket_count : Int
deriving DecidableEq, Repr

/-- A validated request, the `TicketCreate` pydantic model of main.py:
string fields already whitespace-stripped, `ticket_type` coerced into the
enum. -/
structure TicketCreate where
  name : String
  mobile : String
  email : String
  upi_id : String
  ticket_type : TicketType
  ticket_count : Int
deriving DecidableEq, Repr

/-- Pydantic's `strip_whitespace=True`: leading and trailing whitespace
removed from the field value. -/
def stripWs (s : String) : String :=
  ⟨(((s.data.dropWhile Char.isWhitespace).reverse.dropWhile Char.isWhitespace).reverse)⟩

/-- Modelled from the spec: pydantic's `EmailStr` validator is supplied by
an external library that is not part of this repository; the spec asks
only for a well-formed address, modelled here as exactly one `@`
separating a nonempty local part from a nonempty domain that contains a
dot. -/
def wellFormedEmail (e : String) : Bool :=
  let cs := e.data
  let l := cs.takeWhile (fun c => c != '@')
  match cs.drop l.length with
  | [] => false
  | _ :: d => !l.isEmpty && !d.isEmpty && !d.contains '@' && d.contains '.'

/-- Pydantic validation of `TicketCreate`: `name` nonempty after
stripping, `mobile` length between 8 and 15 after stripping, `email`
well-formed, `upi_id` at least 5 characters after stripping,
`ticket_type` a member of the enum.  `ticket_count` is declared as a bare
`int` with default 1 and carries no further constraint.  On failure the
offending field is reported. -/
def validate (r : RawTicketCreate) : Except String TicketCreate :=
  let name := stripWs r.name
  let mobile := stripWs r.mobile
  let upi := stripWs r.upi_id
  if name.length < 1 then .error "name"
  else if mobile.length < 8 then .error "mobile"
  else if 15 < mobile.length then .error "mobile"
  else if wellFormedEmail r.email = false then .error "email"
  else if upi.length < 5 then .error "upi_id"
  else
    match TicketType.parse r.ticket_type with
    | none => .error "ticket_type"
    | some tt => .ok ⟨name, mobile, r.email, upi, tt, r.ticket_count⟩

/-- The failure classifications of the POST /tickets handler, with the HTTP
status each one is raised with in main.py (pydantic validation failures
are returned by FastAPI before the handler body runs). -/
inductive CreateError where
  | invalidRequest (field : String)
  | duplicateUpi
  | dbInsertFailed
  | emailFailed
deriving DecidableEq, Repr

/-- The HTTP status code of each failure: the duplicate-UPI rejection is
`HTTPException(status_code=400, ...)`, the insert failure and the email
failure are both raised with status 500, and FastAPI reports request
validation errors with 422. -/
def CreateError.statusCode : CreateError → Nat
  | .invalidRequest _ => 422
  | .duplicateUpi => 400
  | .dbInsertFailed => 500
  | .emailFailed => 500

/-- The response body of a successful POST /tickets or GET /tickets/{uid},
the `TicketResponse` pydantic model. -/
structure TicketResponse where
  ticket_uid : String
  name : String
  mobile : String
  email : String
  upi_id : String
  ticket_type : TicketType
  ticket_count : Int
deriving DecidableEq, Repr

/-- The RETURNING row of the INSERT (equally the SELECT of the GET route)
packaged as a `TicketResponse`. -/
def toResponse (t : Ticket) : TicketResponse :=
  ⟨t.ticket_uid, t.name, t.mobile, t.email, t.upi_id, t.ticket_type, t.ticket_count⟩

/-- The row built by the INSERT of `create_ticket` from the generated uid
and the validated request.  The INSERT's column list omits `is_scanned`;
the value false here is modelled from the spec, which fixes the redeemed
flag of the schema (absent from the repository) as initially false. -/
def mkRow (uid : String) (t : TicketCreate) : Ticket :=
  ⟨uid, t.name, t.mobile, t.email, t.upi_id, t.ticket_type, t.ticket_count, false⟩

/-- The externally observable steps of the POST /tickets handler, in the
order the source performs them. -/
inductive Event where
  | genId
  | storePreCheck
  | storeInsert
  | sendEmail
deriving DecidableEq, Repr

/-- Modelled from the spec: the schema of the `tickets` table is not part
of the repository; per the spec it carries a uniqueness constraint on
`upi_id` (the payment reference), so an INSERT whose `upi_id` collides
with an existing row raises; main.py's handler catches that exception,
rolls the transaction back and maps it to the generic 500
`dbInsertFailed` failure.  A non-colliding INSERT appends the row and is
committed. -/
def insertStep (s : Store) (row : Ticket) : Except CreateError (Ticket × Store) :=
  if existsByUpi s row.upi_id then .error .dbInsertFailed
  else .ok (row, s ++ [row])

/-- The POST /tickets handler body of main.py on a validated request.
`uid` is the `str(uuid.uuid4())` generated on the handler's first line,
before the duplicate pre-check; `emailOk` is whether the SendGrid call
succeeds.  Steps, as in the source: generate the uid; SELECT for an
existing row with the same `upi_id` and reject with the 400 duplicate
failure if found; INSERT and commit; render the QR code (pure, no store
effect); send the email, mapping a send failure to a 500 after the row is
already committed.  Returns the handler result, the committed store and
the event trace. -/
def create_ticket (s : Store) (uid : String) (t : TicketCreate) (emailOk : Bool) :
    Except CreateError TicketResponse × Store × List Event :=
  if existsByUpi s t.upi_id then
    (.error .duplicateUpi, s, [.genId, .storePreCheck])
  else
    match insertStep s (mkRow uid t) with
    | .error e => (.error e, s, [.genId, .storePreCheck, .storeInsert])
    | .ok (row, s1) =>
      if emailOk then
        (.ok (toResponse row), s1, [.genId, .storePreCheck, .storeInsert, .sendEmail])
      else
        (.error .emailFailed, s1, [.genId, .storePreCheck, .storeInsert, .sendEmail])

/-- The full POST /tickets route: FastAPI validates the body against
`TicketCreate` first and reports the offending field without running the
handler (no store access, empty trace); a validated request runs
`create_ticket`. -/
def postTickets (s : Store) (uid : String) (r : RawTicketCreate) (emailOk : Bool) :
    Except CreateError TicketResponse × Store × List Event :=
  match validate r with
  | .error f => (.error (.invalidRequest f), s, [])
  | .ok t => create_ticket s uid t emailOk

/-- GET /tickets/{ticket_uid}: SELECT the row, 404 (`none`) when absent,
otherwise the row's fields as a `TicketResponse`.  Read-only. -/
def get_ticket (s : Store) (uid : String) : Option TicketResponse :=
  (findByUid s uid).map toResponse

/-- The pre-check phase of `create_ticket`: the duplicate-UPI SELECT, a
separate statement from the INSERT in the source. -/
def createPreCheck (s : Store) (upi : String) : Bool :=
  existsByUpi s upi

/-- The rest of `create_ticket` after the pre-check, acting on whatever
the (possibly stale) pre-check returned, with the INSERT running against
the current store. -/
def createFinish (s : Store) (uid : String) (t : TicketCreate) (emailOk : Bool)
    (dup : Bool) : Except CreateError TicketResponse × Store :=
  if dup then (.error .duplicateUpi, s)
  else
    match insertStep s (mkRow uid t) with
    | .error e => (.error e, s)
    | .ok (row, s1) =>
      if emailOk then (.ok (toResponse row), s1)
      else (.error .emailFailed, s1)

/-- Sequentially, the two-phase decomposition coincides with
`create_ticket` (up to the event trace). -/
theorem create_eq_createFinish_preCheck (s : Store) (uid : String) (t : TicketCreate)
    (emailOk : Bool) :
    ((create_ticket s uid t emailOk).1, (create_ticket s uid t emailOk).2.1)
      = createFinish s uid t emailOk (createPreCheck s t.upi_id) := by
  unfold create_ticket createFinish createPreCheck
  by_cases h : existsByUpi s t.upi_id
  · simp [h]
  · simp only [h, Bool.false_eq_true, if_neg, ite_false]
    cases hi : insertStep s (mkRow uid t) with
    | error e => simp
    | ok p => cases p with
      | mk row s1 => by_cases he : emailOk <;> simp [he]

/-! ## The system as a transition system over the store -/

/-- One client-visible operation against the store: a POST /tickets
request (with its generated uid and the email outcome) or a scan handled
by `verify_ticket` (with its fault environment).  GET /tickets is
read-only and does not appear. -/
inductive Op where
  | createOp (uid : String) (r : RawTicketCreate) (emailOk : Bool)
  | verifyOp (f : DbFault) (uid : String)
deriving Repr

/-- The committed store after one operation. -/
def applyOp (s : Store) : Op → Store
  | .createOp uid r emailOk => (postTickets s uid r emailOk).2.1
  | .verifyOp f uid => (verify_ticket f s uid).2.2

/-- The committed store after a sequence of operations. -/
def applyOps (s : Store) (ops : List Op) : Store :=
  ops.foldl applyOp s

/-! ## Store lemmas -/

theorem findByUid_append (s l : Store) (uid : String) :
    findByUid (s ++ l) uid =
      match findByUid s uid with
      | some t => some t
      | none => findByUid l uid := by
  induction s with
  | nil => simp [findByUid]
  | cons a tl ih =>
    simp only [findByUid, List.cons_append, List.find?] at *
    cases h : a.ticket_uid == uid <;> simp [h, ih]

theorem findByUid_markScanned (s : Store) (uid2 uid : String) :
    findByUid (markScanned s uid2) uid =
      (findByUid s uid).map
        (fun t => if t.ticket_uid == uid2 then { t with is_scanned := true } else t) := by
  induction s with
  | nil => rfl
  | cons a tl ih =>
    have huid : (if a.ticket_uid == uid2 then { a with is_scanned := true } else a).ticket_uid
        = a.ticket_uid := by
      split <;> rfl
    unfold findByUid markScanned at ih ⊢
    rw [List.map_cons, List.find?_cons, List.find?_cons, huid]
    cases h : a.ticket_uid == uid
    · simpa only [h] using ih
    · simp only [h]; rfl

theorem existsByUpi_append (s l : Store) (upi : String) :
    existsByUpi (s ++ l) upi = (existsByUpi s upi || existsByUpi l upi) := by
  simp [existsByUpi, List.any_append]

theorem existsByUpi_markScanned (s : Store) (uid upi : String) :
    existsByUpi (markScanned s uid) upi = existsByUpi s upi := by
  induction s with
  | nil => rfl
  | cons a tl ih =>
    simp only [existsByUpi, markScanned, List.map_cons, List.any_cons] at *
    have hupi : (if a.ticket_uid == uid then { a with is_scanned := true } else a).upi_id
        = a.upi_id := by
      split <;> rfl
    rw [hupi, ih]

theorem flagOf_append_of_some {s : Store} {uid : String} {b : Bool}
    (h : flagOf s uid = some b) (l : Store) : flagOf (s ++ l) uid = some b := by
  unfold flagOf at *
  rw [findByUid_append]
  cases hf : findByUid s uid with
  | none => rw [hf] at h; simp at h
  | some t => rw [hf] at h; simpa using h

theorem flagOf_markScanned_mono {s : Store} {uid : String} (uid2 : String)
    (h : flagOf s uid = some true) : flagOf (markScanned s uid2) uid = some true := by
  unfold flagOf at h ⊢
  rw [findByUid_markScanned]
  cases hf : findByUid s uid with
  | none => rw [hf] at h; simp at h
  | some t =>
    rw [hf] at h
    simp only [Option.map_some', Option.some_inj] at h
    simp only [Option.map_some', Option.some_inj]
    by_cases hc : (t.ticket_uid == uid2) = true
    · simp [hc]
    · simp [hc, h]

/-- The committed store of a `verify_ticket` call is either unchanged or
the unguarded UPDATE applied. -/
theorem verify_ticket_store (f : DbFault) (s : Store) (uid : String) :
    (verify_ticket f s uid).2.2 = s ∨ (verify_ticket f s uid).2.2 = markScanned s uid := by
  unfold verify_ticket
  by_cases h1 : f.failSelect = true
  · simp [h1]
  · cases hfind : findByUid s uid with
    | none => simp [h1, hfind]
    | some t =>
      by_cases h2 : t.is_scanned = true
      · simp [h1, hfind, h2]
      · by_cases h3 : f.failUpdate = true
        · simp [h1, hfind, h2, h3]
        · by_cases h4 : f.failCommit = true
          · simp [h1, hfind, h2, h3, h4]
          · simp [h1, hfind, h2, h3, h4]

/-- The committed store of a POST /tickets request is either unchanged or
the store with the one new row appended. -/
theorem postTickets_store (s : Store) (uid : String) (r : RawTicketCreate) (emailOk : Bool) :
    (postTickets s uid r emailOk).2.1 = s ∨
    ∃ t, validate r = .ok t ∧ (postTickets s uid r emailOk).2.1 = s ++ [mkRow uid t] := by
  unfold postTickets
  cases hv : validate r with
  | error f => simp
  | ok t =>
    by_cases hd : existsByUpi s t.upi_id = true
    · simp [create_ticket, hd]
    · refine Or.inr ⟨t, rfl, ?_⟩
      have hmk : (mkRow uid t).upi_id = t.upi_id := rfl
      unfold create_ticket insertStep
      cases emailOk <;> simp [hd, hmk]

/-- The flag of a redeemed ticket stays true across any single
operation. -/
theorem flagOf_applyOp_mono {s : Store} {uid : String} (op : Op)
    (h : flagOf s uid = some true) : flagOf (applyOp s op) uid = some true := by
  cases op with
  | createOp uidp r emailOk =>
    simp only [applyOp]
    rcases postTickets_store s uidp r emailOk with hs | ⟨t, _, hs⟩
    · rw [hs]; exact h
    · rw [hs]; exact flagOf_append_of_some h _
  | verifyOp f uidv =>
    simp only [applyOp]
    rcases verify_ticket_store f s uidv with hs | hs
    · rw [hs]; exact h
    · rw [hs]; exact flagOf_markScanned_mono uidv h

/-- The flag of a redeemed ticket stays true across any sequence of
operations. -/
theorem flagOf_applyOps_mono {uid : String} (ops : List Op) :
    ∀ {s : Store}, flagOf s uid = some true → flagOf (applyOps s ops) uid = some true := by
  induction ops with
  | nil => intro s h; exact h
  | cons op rest ih =>
    intro s h
    exact ih (flagOf_applyOp_mono op h)

/-- A ticket whose flag is already true is reported as already verified,
with the store unchanged. -/
theorem verify_ticket_of_flag_true {s : Store} {uid : String}
    (h : flagOf s uid = some true) :
    verify_ticket noFault s uid = ("USER ALREADY VERIFIED", false, s) := by
  unfold flagOf at h
  cases hf : findByUid s uid with
  | none => rw [hf] at h; simp at h
  | some t =>
    rw [hf] at h
    simp only [Option.map_some', Option.some_inj] at h
    simp [verify_ticket, noFault, hf, h]

/-- A row found by uid satisfies the lookup predicate. -/
theorem findByUid_key {s : Store} {uid : String} {t : Ticket}
    (h : findByUid s uid = some t) : t.ticket_uid = uid := by
  unfold findByUid at h
  have := List.find?_some h
  simpa using this

/-- After the unguarded UPDATE on a present row, its flag reads true. -/
theorem flagOf_markScanned_self {s : Store} {uid : String} {t : Ticket}
    (h : findByUid s uid = some t) : flagOf (markScanned s uid) uid = some true := by
  unfold flagOf
  rw [findByUid_markScanned, h]
  simp [findByUid_key h]

/-! ## Concrete fixtures -/

/-- A freshly issued, unredeemed ticket (the scenario of the spec's
testable-properties section, with the code's enum value). -/
def demoTicket : Ticket :=
  ⟨"t1", "Asha", "9876543210", "a@x.com", "upi123ab", .non_premium, 2, false⟩

/-- A store holding just the one freshly issued ticket. -/
def demoStore : Store := [demoTicket]

/-! ## Claims -/

/-- Claim C1.  The spec requires that under concurrent redemption calls
for the same freshly issued ticket exactly one caller observes the
success outcome, with the check-and-mark as one indivisible step.  The
code instead runs the SELECT and the unguarded UPDATE as two separate
statements: in the interleaving where both callers SELECT before either
UPDATEs, both observe `("USER VERIFIED - OK", True)` — the double-count
the spec forbids. -/
theorem concurrent_redeem_double_success :
    scanRead demoStore "t1" = some false
    ∧ (scanFinish demoStore "t1" (scanRead demoStore "t1")).1 = "USER VERIFIED - OK"
    ∧ (scanFinish demoStore "t1" (scanRead demoStore "t1")).2.1 = true
    ∧ (scanFinish (scanFinish demoStore "t1" (scanRead demoStore "t1")).2.2 "t1"
        (scanRead demoStore "t1")).1 = "USER VERIFIED - OK"
    ∧ (scanFinish (scanFinish demoStore "t1" (scanRead demoStore "t1")).2.2 "t1"
        (scanRead demoStore "t1")).2.1 = true :=
  ⟨rfl, rfl, rfl, rfl, rfl⟩

/-- Claim C2.  For an issued, unredeemed ticket, the first redemption
call returns the success outcome and commits the flag; after that, no
matter what sequence of further operations (issuances or scans, with any
fault environment) runs, any later redemption call with the same uid
returns `("USER ALREADY VERIFIED", False)` and leaves the store
unchanged. -/
theorem first_redeem_then_always_already
    (s : Store) (uid : String) (t : Ticket)
    (hfind : findByUid s uid = some t) (hflag : t.is_scanned = false) :
    verify_ticket noFault s uid = ("USER VERIFIED - OK", true, markScanned s uid)
    ∧ ∀ ops : List Op,
        verify_ticket noFault (applyOps (markScanned s uid) ops) uid
          = ("USER ALREADY VERIFIED", false, applyOps (markScanned s uid) ops) := by
  constructor
  · simp [verify_ticket, noFault, hfind, hflag]
  · intro ops
    exact verify_ticket_of_flag_true
      (flagOf_applyOps_mono ops (flagOf_markScanned_self hfind))

/-- Witness for C2 on the concrete fixture: one intervening scan of the
same ticket between the first call and the later call. -/
theorem first_redeem_then_always_already_witness :
    verify_ticket noFault demoStore "t1" = ("USER VERIFIED - OK", true, markScanned demoStore "t1")
    ∧ verify_ticket noFault
        (applyOps (markScanned demoStore "t1") [Op.verifyOp noFault "t1"]) "t1"
      = ("USER ALREADY VERIFIED", false,
         applyOps (markScanned demoStore "t1") [Op.verifyOp noFault "t1"]) :=
  ⟨(first_redeem_then_always_already demoStore "t1" demoTicket (by decide) (by decide)).1,
   (first_redeem_then_always_already demoStore "t1" demoTicket (by decide) (by decide)).2
     [Op.verifyOp noFault "t1"]⟩

/-- Claim C6.  Redeeming a uid with no row in the store reports
`("USER DOESN'T EXIST", False)` and returns the store exactly as it was
(no row created, no flag changed), in any fault environment in which the
SELECT itself succeeds. -/
theorem redeem_unknown_not_found (f : DbFault) (s : Store) (uid : String)
    (hsel : f.failSelect = false) (h : findByUid s uid = none) :
    verify_ticket f s uid = ("USER DOESN'T EXIST", false, s) := by
  simp [verify_ticket, hsel, h]

/-- Witness for C6 on the concrete fixture. -/
theorem redeem_unknown_not_found_witness :
    verify_ticket noFault demoStore "zz" = ("USER DOESN'T EXIST", false, demoStore) :=
  redeem_unknown_not_found noFault demoStore "zz" rfl (by decide)

/-- Claim C10.  `verify_ticket` is total: in every fault environment the
call returns one of the four message/flag pairs instead of propagating
the exception; whenever the exception handler is hit the success flag is
false, every unsuccessful call leaves the committed store unchanged, and
the success flag is true only on the one verified-OK path. -/
theorem verify_ticket_total_and_safe (f : DbFault) (s : Store) (uid : String) :
    ((verify_ticket f s uid).1 = "DB ERROR"
      ∨ (verify_ticket f s uid).1 = "USER DOESN'T EXIST"
      ∨ (verify_ticket f s uid).1 = "USER ALREADY VERIFIED"
      ∨ (verify_ticket f s uid).1 = "USER VERIFIED - OK")
    ∧ ((verify_ticket f s uid).1 = "DB ERROR" →
        (verify_ticket f s uid).2.1 = false ∧ (verify_ticket f s uid).2.2 = s)
    ∧ ((verify_ticket f s uid).2.1 = false → (verify_ticket f s uid).2.2 = s)
    ∧ ((verify_ticket f s uid).2.1 = true →
        (verify_ticket f s uid).1 = "USER VERIFIED - OK") := by
  unfold verify_ticket
  by_cases h1 : f.failSelect = true
  · simp [h1]
  · cases hfind : findByUid s uid with
    | none => simp [h1, hfind]
    | some t =>
      by_cases h2 : t.is_scanned = true
      · simp [h1, hfind, h2]
      · by_cases h3 : f.failUpdate = true
        · simp [h1, hfind, h2, h3]
        · by_cases h4 : f.failCommit = true
          · simp [h1, hfind, h2, h3, h4]
          · simp [h1, hfind, h2, h3, h4]

/-- Witness for C10: with the SELECT raising, the call reports the error
pair and commits nothing. -/
theorem verify_ticket_total_and_safe_witness :
    (verify_ticket ⟨true, false, false⟩ demoStore "t1").2.1 = false
    ∧ (verify_ticket ⟨true, false, false⟩ demoStore "t1").2.2 = demoStore :=
  (verify_ticket_total_and_safe ⟨true, false, false⟩ demoStore "t1").2.1 rfl

/-- Looking up the row just inserted for a validated request. -/
theorem findByUid_mkRow_singleton (uid : String) (t : TicketCreate) :
    findByUid [mkRow uid t] uid = some (mkRow uid t) := by
  unfold findByUid mkRow
  simp [List.find?_cons]

/-- A row found in a one-row store is that row. -/
theorem findByUid_singleton {t0 t : Ticket} {uid : String}
    (h : findByUid [t0] uid = some t) : t = t0 := by
  unfold findByUid at h
  cases hk : t0.ticket_uid == uid <;> simp [List.find?_cons, hk] at h
  exact h.symm

/-- Claim C4.  Across every operation of the system: a row that appears
under a previously absent uid appears with its flag false (tickets are
created unredeemed); a flag that reads true keeps reading true (no
true→false transition); and an issuance never turns any flag true (only
the redemption operation sets it). -/
theorem redeemed_flag_lifecycle :
    (∀ (s : Store) (op : Op) (uid : String) (t : Ticket),
        findByUid s uid = none → findByUid (applyOp s op) uid = some t →
        t.is_scanned = false)
    ∧ (∀ (s : Store) (op : Op) (uid : String),
        flagOf s uid = some true → flagOf (applyOp s op) uid = some true)
    ∧ (∀ (s : Store) (uidp : String) (r : RawTicketCreate) (emailOk : Bool) (uid : String),
        flagOf (applyOp s (.createOp uidp r emailOk)) uid = some true →
        flagOf s uid = some true) := by
  refine ⟨?_, ?_, ?_⟩
  · intro s op uid t hnone hsome
    cases op with
    | createOp uidp r emailOk =>
      simp only [applyOp] at hsome
      rcases postTickets_store s uidp r emailOk with hs | ⟨tc, _, hs⟩
      · rw [hs, hnone] at hsome; exact Option.noConfusion hsome
      · rw [hs, findByUid_append, hnone] at hsome
        rw [findByUid_singleton hsome]
        rfl
    | verifyOp f uidv =>
      simp only [applyOp] at hsome
      rcases verify_ticket_store f s uidv with hs | hs
      · rw [hs, hnone] at hsome; exact Option.noConfusion hsome
      · rw [hs, findByUid_markScanned, hnone] at hsome
        exact Option.noConfusion hsome
  · intro s op uid h
    exact flagOf_applyOp_mono op h
  · intro s uidp r emailOk uid h
    simp only [applyOp] at h
    rcases postTickets_store s uidp r emailOk with hs | ⟨tc, _, hs⟩
    · rwa [hs] at h
    · rw [hs] at h
      unfold flagOf at h ⊢
      rw [findByUid_append] at h
      cases hf : findByUid s uid with
      | some t => rw [hf] at h; exact h
      | none =>
        exfalso
        rw [hf] at h
        have h2 : Option.map (fun t => t.is_scanned) (findByUid [mkRow uidp tc] uid)
            = some true := h
        cases hs1 : findByUid [mkRow uidp tc] uid with
        | none => rw [hs1] at h2; exact Option.noConfusion h2
        | some t =>
          rw [hs1] at h2
          have ht : t = mkRow uidp tc := findByUid_singleton hs1
          rw [ht] at h2
          simp [mkRow] at h2

/-- Witness for C4 on the concrete fixture: a fresh issuance creates an
unredeemed row, a redeemed flag survives a further operation, and an
issuance does not redeem anything. -/
theorem redeemed_flag_lifecycle_witness :
    (mkRow "u1" ⟨"Asha", "9876543210", "a@x.com", "upi123ab", .non_premium, 2⟩).is_scanned
        = false
    ∧ flagOf (applyOp (markScanned demoStore "t1") (.verifyOp noFault "t1")) "t1" = some true
    ∧ flagOf (markScanned demoStore "t1") "t1" = some true :=
  ⟨redeemed_flag_lifecycle.1 ([] : Store)
     (.createOp "u1" ⟨"Asha", "9876543210", "a@x.com", "upi123ab", "non_premium", 2⟩ true)
     "u1" (mkRow "u1" ⟨"Asha", "9876543210", "a@x.com", "upi123ab", .non_premium, 2⟩)
     (by decide) (by decide),
   redeemed_flag_lifecycle.2.1 (markScanned demoStore "t1") (.verifyOp noFault "t1") "t1"
     (by decide),
   redeemed_flag_lifecycle.2.2 (markScanned demoStore "t1") "t1"
     ⟨"Asha", "9876543210", "a@x.com", "upi123ab", "non_premium", 2⟩ true "t1"
     (by decide)⟩

/-- A second registrant with a distinct payment reference. -/
def demoReq2 : TicketCreate := ⟨"Bina", "9876543211", "b@x.com", "upi999xy", .guest, 1⟩

/-- Claim C5.  When the notification send fails after the INSERT has
committed, the handler fails with the 500 email failure but the row stays
in the store: the committed store is the old store plus the new row, and
a lookup by the generated uid returns the ticket with exactly the
submitted fields. -/
theorem notification_failure_keeps_ticket
    (s : Store) (uid : String) (t : TicketCreate)
    (hupi : existsByUpi s t.upi_id = false)
    (hfresh : findByUid s uid = none) :
    (create_ticket s uid t false).1 = .error .emailFailed
    ∧ CreateError.emailFailed.statusCode = 500
    ∧ (create_ticket s uid t false).2.1 = s ++ [mkRow uid t]
    ∧ get_ticket (create_ticket s uid t false).2.1 uid
        = some ⟨uid, t.name, t.mobile, t.email, t.upi_id, t.ticket_type, t.ticket_count⟩ := by
  have hmk : (mkRow uid t).upi_id = t.upi_id := rfl
  have hcc : create_ticket s uid t false
      = (.error .emailFailed, s ++ [mkRow uid t],
         [.genId, .storePreCheck, .storeInsert, .sendEmail]) := by
    unfold create_ticket insertStep
    simp [hupi, hmk]
  refine ⟨by rw [hcc], rfl, by rw [hcc], ?_⟩
  rw [hcc]
  unfold get_ticket
  simp only
  rw [findByUid_append, hfresh, findByUid_mkRow_singleton]
  rfl

/-- Witness for C5 on the concrete fixture. -/
theorem notification_failure_keeps_ticket_witness :
    (create_ticket demoStore "u7" demoReq2 false).1 = .error .emailFailed
    ∧ CreateError.emailFailed.statusCode = 500
    ∧ (create_ticket demoStore "u7" demoReq2 false).2.1 = demoStore ++ [mkRow "u7" demoReq2]
    ∧ get_ticket (create_ticket demoStore "u7" demoReq2 false).2.1 "u7"
        = some ⟨"u7", "Bina", "9876543211", "b@x.com", "upi999xy", .guest, 1⟩ :=
  notification_failure_keeps_ticket demoStore "u7" demoReq2 (by decide) (by decide)

/-- A validated request carrying the same payment reference as the ticket
already in the demo store. -/
def demoDupReq : TicketCreate := ⟨"Char", "9876543212", "c@x.com", "upi123ab", .premium, 1⟩

/-- Claim C7, counterexample.  The handler's first line is
`ticket_uid = str(uuid.uuid4())`, before the duplicate pre-check: on the
duplicate-rejection path the identifier has already been generated, so
the failure is not reached "without having generated a ticket
identifier". -/
theorem duplicate_precheck_cex :
    (create_ticket demoStore "u2" demoDupReq true).1 = .error .duplicateUpi
    ∧ Event.genId ∈ (create_ticket demoStore "u2" demoDupReq true).2.2 := by
  refine ⟨rfl, ?_⟩
  have ht : (create_ticket demoStore "u2" demoDupReq true).2.2
      = [Event.genId, Event.storePreCheck] := rfl
  rw [ht]
  exact List.mem_cons_self _ _

/-- Claim C7 (amended).  When the pre-check finds the payment reference
already registered, issuance fails with the 400 duplicate rejection, the
store is untouched, the INSERT is never attempted and notification is
never invoked; a ticket identifier, however, has already been generated
(and is discarded unused). -/
theorem duplicate_precheck_behavior (s : Store) (uid : String) (t : TicketCreate)
    (eok : Bool) (hdup : existsByUpi s t.upi_id = true) :
    create_ticket s uid t eok = (.error .duplicateUpi, s, [.genId, .storePreCheck])
    ∧ CreateError.duplicateUpi.statusCode = 400
    ∧ Event.sendEmail ∉ (create_ticket s uid t eok).2.2
    ∧ Event.storeInsert ∉ (create_ticket s uid t eok).2.2
    ∧ Event.genId ∈ (create_ticket s uid t eok).2.2 := by
  have hc : create_ticket s uid t eok = (.error .duplicateUpi, s, [.genId, .storePreCheck]) := by
    unfold create_ticket
    simp [hdup]
  refine ⟨hc, rfl, ?_, ?_, ?_⟩ <;> rw [hc] <;> simp

/-- Witness for the amended C7 on the concrete fixture. -/
theorem duplicate_precheck_behavior_witness :
    create_ticket demoStore "u2" demoDupReq false
      = (.error .duplicateUpi, demoStore, [.genId, .storePreCheck])
    ∧ CreateError.duplicateUpi.statusCode = 400
    ∧ Event.sendEmail ∉ (create_ticket demoStore "u2" demoDupReq false).2.2
    ∧ Event.storeInsert ∉ (create_ticket demoStore "u2" demoDupReq false).2.2
    ∧ Event.genId ∈ (create_ticket demoStore "u2" demoDupReq false).2.2 :=
  duplicate_precheck_behavior demoStore "u2" demoDupReq false (by decide)

/-- The first of two racing registrants sharing one payment reference. -/
def raceReq1 : TicketCreate := ⟨"Asha", "9876543210", "a@x.com", "upi123ab", .non_premium, 1⟩

/-- The second racing registrant, same payment reference as the first. -/
def raceReq2 : TicketCreate := ⟨"Bina", "9876543211", "b@x.com", "upi123ab", .guest, 1⟩

/-- Claim C3, counterexample.  Two issuance requests with the same
payment reference race past the pre-check on the same initial store: the
winner's INSERT commits, and the loser's INSERT hits the uniqueness
constraint — which main.py's handler surfaces as the generic 500
"DB insert failed" error, not as the 400 DuplicateReference
classification the claim requires. -/
theorem duplicate_race_cex :
    createPreCheck [] raceReq1.upi_id = false
    ∧ createPreCheck [] raceReq2.upi_id = false
    ∧ (createFinish [] "u1" raceReq1 true false).1 = .ok (toResponse (mkRow "u1" raceReq1))
    ∧ (createFinish (createFinish [] "u1" raceReq1 true false).2 "u2" raceReq2 true false).1
        = .error .dbInsertFailed
    ∧ (createFinish (createFinish [] "u1" raceReq1 true false).2 "u2" raceReq2 true false).1
        ≠ .error .duplicateUpi
    ∧ CreateError.dbInsertFailed.statusCode = 500 := by
  have h4 : (createFinish (createFinish [] "u1" raceReq1 true false).2 "u2" raceReq2 true
      false).1 = .error .dbInsertFailed := rfl
  refine ⟨rfl, rfl, rfl, h4, ?_, rfl⟩
  rw [h4]
  intro h
  injection h with h2
  exact CreateError.noConfusion h2

/-- Claim C3 (amended).  Sequentially, issuing twice with the same
payment reference gives exactly one success and one 400 DuplicateReference
rejection from the pre-check.  Under the concurrent race in which both
pre-checks read the initial store, the loser's INSERT violates the store
uniqueness constraint and the handler surfaces the generic 500 insert
failure — not the DuplicateReference classification. -/
theorem duplicate_reference_handling
    (s : Store) (uid1 uid2 : String) (t1 t2 : TicketCreate)
    (hupi : t2.upi_id = t1.upi_id)
    (hfresh : existsByUpi s t1.upi_id = false) :
    ((create_ticket s uid1 t1 true).1 = .ok (toResponse (mkRow uid1 t1))
      ∧ (create_ticket (create_ticket s uid1 t1 true).2.1 uid2 t2 true).1
          = .error .duplicateUpi
      ∧ CreateError.duplicateUpi.statusCode = 400)
    ∧ (createPreCheck s t1.upi_id = false
      ∧ createPreCheck s t2.upi_id = false
      ∧ (createFinish (createFinish s uid1 t1 true (createPreCheck s t1.upi_id)).2 uid2 t2
          true (createPreCheck s t2.upi_id)).1 = .error .dbInsertFailed
      ∧ CreateError.dbInsertFailed.statusCode = 500) := by
  have hmk1 : (mkRow uid1 t1).upi_id = t1.upi_id := rfl
  have hmk2 : (mkRow uid2 t2).upi_id = t2.upi_id := rfl
  have hc1 : create_ticket s uid1 t1 true
      = (.ok (toResponse (mkRow uid1 t1)), s ++ [mkRow uid1 t1],
         [.genId, .storePreCheck, .storeInsert, .sendEmail]) := by
    unfold create_ticket insertStep
    simp [hfresh, hmk1]
  have hs1upi : existsByUpi (s ++ [mkRow uid1 t1]) t2.upi_id = true := by
    rw [hupi, existsByUpi_append, hfresh]
    simp [existsByUpi, hmk1]
  have hpc1 : createPreCheck s t1.upi_id = false := hfresh
  have hpc2 : createPreCheck s t2.upi_id = false := by
    unfold createPreCheck
    rw [hupi]
    exact hfresh
  constructor
  · refine ⟨by rw [hc1], ?_, rfl⟩
    rw [hc1]
    unfold create_ticket
    simp [hs1upi]
  · refine ⟨hpc1, hpc2, ?_, rfl⟩
    have hf1 : (createFinish s uid1 t1 true (createPreCheck s t1.upi_id)).2
        = s ++ [mkRow uid1 t1] := by
      rw [hpc1]
      unfold createFinish insertStep
      simp [hfresh, hmk1]
    rw [hpc2, hf1]
    unfold createFinish insertStep
    simp [hs1upi, hmk2]

/-- Witness for the amended C3 on the concrete fixture. -/
theorem duplicate_reference_handling_witness :
    ((create_ticket [] "u1" raceReq1 true).1 = .ok (toResponse (mkRow "u1" raceReq1))
      ∧ (create_ticket (create_ticket [] "u1" raceReq1 true).2.1 "u2" raceReq2 true).1
          = .error .duplicateUpi
      ∧ CreateError.duplicateUpi.statusCode = 400)
    ∧ (createPreCheck [] raceReq1.upi_id = false
      ∧ createPreCheck [] raceReq2.upi_id = false
      ∧ (createFinish (createFinish [] "u1" raceReq1 true (createPreCheck [] raceReq1.upi_id)).2
          "u2" raceReq2 true (createPreCheck [] raceReq2.upi_id)).1 = .error .dbInsertFailed
      ∧ CreateError.dbInsertFailed.statusCode = 500) :=
  duplicate_reference_handling [] "u1" "u2" raceReq1 raceReq2 rfl rfl

/-- Strings outside the three enum values parse to none. -/
theorem TicketType.parse_eq_none {c : String}
    (h1 : c ≠ "premium") (h2 : c ≠ "non_premium") (h3 : c ≠ "guest") :
    TicketType.parse c = none := by
  unfold TicketType.parse
  split <;> simp_all

/-- Everything a successful validation pins down: the validated fields are
the stripped raw fields, the raw type string parses, the count is passed
through unchecked, and the length and email constraints held. -/
theorem validate_ok_spec {r : RawTicketCreate} {t : TicketCreate}
    (h : validate r = .ok t) :
    t.name = stripWs r.name ∧ t.mobile = stripWs r.mobile ∧ t.email = r.email
    ∧ t.upi_id = stripWs r.upi_id
    ∧ TicketType.parse r.ticket_type = some t.ticket_type
    ∧ t.ticket_count = r.ticket_count
    ∧ 1 ≤ (stripWs r.name).length
    ∧ 8 ≤ (stripWs r.mobile).length ∧ (stripWs r.mobile).length ≤ 15
    ∧ wellFormedEmail r.email = true
    ∧ 5 ≤ (stripWs r.upi_id).length := by
  unfold validate at h
  by_cases h1 : (stripWs r.name).length < 1
  · simp [h1] at h
  · by_cases h2 : (stripWs r.mobile).length < 8
    · simp [h1, h2] at h
    · by_cases h3 : 15 < (stripWs r.mobile).length
      · simp [h1, h2, h3] at h
      · by_cases h4 : wellFormedEmail r.email = false
        · simp [h1, h2, h3, h4] at h
        · by_cases h5 : (stripWs r.upi_id).length < 5
          · simp [h1, h2, h3, h4, h5] at h
          · cases hp : TicketType.parse r.ticket_type with
            | none => simp [h1, h2, h3, h4, h5, hp] at h
            | some tt =>
              simp [h1, h2, h3, h4, h5, hp] at h
              subst h
              refine ⟨rfl, rfl, rfl, rfl, rfl, rfl, ?_, ?_, ?_, ?_, ?_⟩
              · omega
              · omega
              · omega
              · cases hwf : wellFormedEmail r.email
                · exact absurd hwf h4
                · rfl
              · omega

/-- The raw request of the spec's demo scenario, carrying the code's enum
value `non_premium`. -/
def demoRaw : RawTicketCreate := ⟨"Asha", "9876543210", "a@x.com", "upi123ab", "non_premium", 2⟩

/-- Claim C8, counterexample.  The code's enum is
{premium, non_premium, guest}, not {premium, standard, guest}: the string
"standard" is rejected by the enum even though the claim lists it, and a
request with class "non_premium" — outside the claim's enumeration — is
accepted and issued carrying that value. -/
theorem ticket_class_cex :
    TicketType.parse "standard" = none
    ∧ (postTickets [] "u1" demoRaw true).1
        = .ok ⟨"u1", "Asha", "9876543210", "a@x.com", "upi123ab", .non_premium, 2⟩
    ∧ TicketType.non_premium.value ≠ "premium"
    ∧ TicketType.non_premium.value ≠ "standard"
    ∧ TicketType.non_premium.value ≠ "guest" := by
  refine ⟨rfl, rfl, ?_, ?_, ?_⟩ <;> decide

/-- Claim C8 (amended).  Every ticket class is one of exactly the three
code values premium, non_premium and guest: each enum member's value is
one of the three strings, only those three strings parse into the enum,
and a request whose class string is outside the enum never validates. -/
theorem ticket_class_closed_enum :
    (∀ tt : TicketType,
        tt.value = "premium" ∨ tt.value = "non_premium" ∨ tt.value = "guest")
    ∧ (∀ c : String, (TicketType.parse c).isSome = true →
        c = "premium" ∨ c = "non_premium" ∨ c = "guest")
    ∧ (∀ (r : RawTicketCreate) (t : TicketCreate),
        TicketType.parse r.ticket_type = none → validate r ≠ .ok t) := by
  refine ⟨?_, ?_, ?_⟩
  · intro tt
    cases tt
    · exact Or.inl rfl
    · exact Or.inr (Or.inl rfl)
    · exact Or.inr (Or.inr rfl)
  · intro c h
    by_cases h1 : c = "premium"
    · exact Or.inl h1
    · by_cases h2 : c = "non_premium"
      · exact Or.inr (Or.inl h2)
      · by_cases h3 : c = "guest"
        · exact Or.inr (Or.inr h3)
        · rw [TicketType.parse_eq_none h1 h2 h3] at h
          simp at h
  · intro r t hp hv
    have := (validate_ok_spec hv).2.2.2.2.1
    rw [hp] at this
    exact Option.noConfusion this

/-- Witness for the amended C8 at concrete inputs. -/
theorem ticket_class_closed_enum_witness :
    (TicketType.guest.value = "premium" ∨ TicketType.guest.value = "non_premium"
      ∨ TicketType.guest.value = "guest")
    ∧ (("guest" : String) = "premium" ∨ ("guest" : String) = "non_premium"
      ∨ ("guest" : String) = "guest")
    ∧ validate ⟨"Asha", "9876543210", "a@x.com", "upi123ab", "standard", 2⟩
        ≠ .ok ⟨"Asha", "9876543210", "a@x.com", "upi123ab", .guest, 2⟩ :=
  ⟨ticket_class_closed_enum.1 .guest,
   ticket_class_closed_enum.2.1 "guest" (by decide),
   ticket_class_closed_enum.2.2 ⟨"Asha", "9876543210", "a@x.com", "upi123ab", "standard", 2⟩
     ⟨"Asha", "9876543210", "a@x.com", "upi123ab", .guest, 2⟩ (by decide)⟩

/-- A raw request whose quantity is zero and whose other fields are all
valid. -/
def rawZeroCount : RawTicketCreate :=
  ⟨"Asha", "9876543210", "a@x.com", "upi123ab", "non_premium", 0⟩

/-- Claim C9, counterexample.  `ticket_count` is declared as a bare `int`
with default 1 and no positivity constraint: a request with quantity 0
passes validation, reaches the store and creates a row with count 0,
instead of failing with InvalidRequest as the claim requires. -/
theorem quantity_not_validated_cex :
    validate rawZeroCount
      = .ok ⟨"Asha", "9876543210", "a@x.com", "upi123ab", .non_premium, 0⟩
    ∧ ¬(0 < (0 : Int))
    ∧ (postTickets [] "u1" rawZeroCount true).1
        = .ok ⟨"u1", "Asha", "9876543210", "a@x.com", "upi123ab", .non_premium, 0⟩
    ∧ (postTickets [] "u1" rawZeroCount true).2.1
        = [⟨"u1", "Asha", "9876543210", "a@x.com", "upi123ab", .non_premium, 0, false⟩] :=
  ⟨rfl, by decide, rfl, rfl⟩

/-- A raw request whose mobile number is below the length bound. -/
def rawShortMobile : RawTicketCreate := ⟨"Asha", "12345", "a@x.com", "upi123ab", "guest", 1⟩

/-- Claim C9 (amended).  A request failing validation (empty stripped
name, mobile length outside 8..15, malformed email, payment reference
shorter than 5, invalid ticket class) is rejected with InvalidRequest
naming the offending field, before any store access (the store is
returned untouched and the event trace is empty); a validated request
satisfies all those field constraints — but its quantity is passed
through unchecked, whatever integer it is. -/
theorem validation_gate (r : RawTicketCreate) :
    (∀ fld : String, validate r = .error fld →
        ∀ (s : Store) (uid : String) (eok : Bool),
          postTickets s uid r eok = (.error (.invalidRequest fld), s, []))
    ∧ (∀ t : TicketCreate, validate r = .ok t →
        1 ≤ t.name.length ∧ 8 ≤ t.mobile.length ∧ t.mobile.length ≤ 15
        ∧ wellFormedEmail t.email = true ∧ 5 ≤ t.upi_id.length
        ∧ t.ticket_count = r.ticket_count) := by
  constructor
  · intro fld hv s uid eok
    unfold postTickets
    rw [hv]
  · intro t hv
    obtain ⟨hn, hm, he, hu, _, hcnt, l1, l2, l3, l4, l5⟩ := validate_ok_spec hv
    rw [hn, hm, he, hu]
    exact ⟨l1, l2, l3, l4, l5, hcnt⟩

/-- Witness for the amended C9: a short mobile number is rejected before
any store access, and a request with quantity 0 validates with the 0
passed through. -/
theorem validation_gate_witness :
    postTickets demoStore "u9" rawShortMobile true
        = (.error (.invalidRequest "mobile"), demoStore, [])
    ∧ (1 ≤ ("Asha" : String).length ∧ 8 ≤ ("9876543210" : String).length
        ∧ ("9876543210" : String).length ≤ 15 ∧ wellFormedEmail "a@x.com" = true
        ∧ 5 ≤ ("upi123ab" : String).length ∧ (0 : Int) = 0) :=
  ⟨(validation_gate rawShortMobile).1 "mobile" rfl demoStore "u9" true,
   (validation_gate rawZeroCount).2
     ⟨"Asha", "9876543210", "a@x.com", "upi123ab", .non_premium, 0⟩ rfl⟩

end TicketingSystem
